import Mathlib

/-!
Verification development for the asynchronous download-and-ledger subsystem of
the `epstein_api` repository.  The definitions below are a shallow embedding of
`src/backend/core/downloader.py` (the primary `AsyncDownloader` with its SQLite
`DownloadLedger`) and of `src/backend/services/downloader.py` (the second
`AsyncDownloader` implementation), together with the path sanitizer and the
exception classification of `src/backend/core/exceptions.py`.

Modelling conventions:
* machine state (the ledger's rows, the destination file's bytes, the log of
  HTTP requests issued) is passed explicitly;
* the HTTP server is a function from (request index, url, optional range
  start) to a response, so each `session.get` call is deterministic given the
  state;
* SHA-256 is abstracted to an injective encoding of the byte stream fed to the
  hasher — every claim depends only on the digest being a function of exactly
  those bytes, never on the compression function itself;
* `iter_chunked` boundaries are modelled by the server delivering the body as
  an explicit list of chunks;
* timestamps are abstract naturals supplied by the caller.
-/

namespace EpsteinApi

/-- `DownloadStatus` from `src/backend/core/downloader.py` (lines 74-82). -/
inductive DownloadStatus where
  | PENDING
  | DOWNLOADING
  | PAUSED
  | COMPLETED
  | FAILED
  | DUPLICATE
deriving DecidableEq, Repr

/-- `DownloadTask` dataclass from `src/backend/core/downloader.py` (lines 85-99).
Timestamps are abstract naturals; `id` is the row id assigned by the ledger. -/
structure DownloadTask where
  id : Option Nat := none
  source_url : String := ""
  local_filepath : String := ""
  status : DownloadStatus := .PENDING
  bytes_downloaded : Nat := 0
  total_bytes : Option Nat := none
  sha256_hash : Option String := none
  retry_count : Nat := 0
  error_message : Option String := none
  created_at : Option Nat := none
  updated_at : Option Nat := none
deriving DecidableEq, Repr

/-- Model of `hashlib.sha256(...).hexdigest()` over the byte stream fed to the
hasher: an injective encoding of that stream.  The claims use the digest only
as a content fingerprint, so the concrete compression function is abstracted;
what matters (and is preserved) is that the digest is determined by exactly
the bytes passed to `update`. -/
def sha256_hexdigest (bs : List Nat) : String :=
  "sha256:" ++ toString bs

/-! ### Download ledger (`DownloadLedger`, lines 113-270)

The SQLite table `download_tasks` is modelled as a list of rows; `source_url`
is unique by schema constraint.  Only the operations the claims touch are
embedded. -/

/-- One ledger row; rows carry exactly the columns of `download_tasks`
(mirrored by the `DownloadTask` structure). -/
abbrev Ledger := List DownloadTask

/-- `DownloadLedger.get_task_by_url` (lines 181-192):
`SELECT * FROM download_tasks WHERE source_url = ?`. -/
def get_task_by_url (db : Ledger) (url : String) : Option DownloadTask :=
  db.find? (fun r => r.source_url = url)

/-- `DownloadLedger.get_task_by_hash` (lines 194-205):
`SELECT * FROM download_tasks WHERE sha256_hash = ? AND status = 'COMPLETED'`. -/
def get_task_by_hash (db : Ledger) (h : String) : Option DownloadTask :=
  db.find? (fun r => r.sha256_hash = some h ∧ r.status = DownloadStatus.COMPLETED)

/-- The per-row effect of `DownloadLedger.update_task`'s SQL UPDATE
(lines 221-246): rows whose `source_url` matches the task's get the seven
mutable columns overwritten (`updated_at` from the database clock `now`);
every other row, and the `id`, `source_url`, `local_filepath`, `created_at`
columns of the matching row, are untouched. -/
def update_task_row (task : DownloadTask) (now : Nat) (row : DownloadTask) : DownloadTask :=
  if row.source_url = task.source_url then
    { row with
      status := task.status
      bytes_downloaded := task.bytes_downloaded
      total_bytes := task.total_bytes
      sha256_hash := task.sha256_hash
      retry_count := task.retry_count
      error_message := task.error_message
      updated_at := some now }
  else row

/-- `DownloadLedger.update_task` (lines 221-246): the UPDATE applied to the
whole table. -/
def ledger_update_task (db : Ledger) (task : DownloadTask) (now : Nat) : Ledger :=
  db.map (update_task_row task now)

/-- `DownloadLedger.create_task` (lines 157-179): INSERT of a new PENDING row
(`created_at`/`updated_at` from the database clock), returning the in-memory
`DownloadTask(id=task_id, source_url=..., local_filepath=..., status=PENDING)`
the Python constructs — note its timestamps are left at their `None` defaults.
The row id models SQLite's AUTOINCREMENT as one past the current row count. -/
def ledger_create_task (db : Ledger) (url filepath : String) (now : Nat) :
    DownloadTask × Ledger :=
  let tid := db.length + 1
  let row : DownloadTask :=
    { id := some tid, source_url := url, local_filepath := filepath,
      status := .PENDING, created_at := some now, updated_at := some now }
  let returned : DownloadTask :=
    { id := some tid, source_url := url, local_filepath := filepath,
      status := .PENDING }
  (returned, db ++ [row])

/-! ### Path sanitizer (`sanitize_path`, lines 42-71)

POSIX paths are modelled as strings; `pathlib`'s `resolve()` is modelled as
purely lexical normalization (no symlinks in the model).  `allowed_base` is
assumed to be an absolute path, as the configured downloads directory is. -/

/-- `Path.is_absolute()` for POSIX paths. -/
def isAbsolute (p : String) : Bool :=
  match p.data with
  | '/' :: _ => true
  | _ => false

/-- Split a character list at `'/'` separators. -/
def splitRaw (cur : List Char) : List Char → List (List Char)
  | [] => [cur.reverse]
  | c :: rest =>
    if c = '/' then cur.reverse :: splitRaw [] rest
    else splitRaw (c :: cur) rest

/-- The path's components, as `pathlib` keeps them: empty components and
single-dot components are dropped, `".."` components are kept. -/
def splitPath (p : String) : List String :=
  ((splitRaw [] p.data).map String.mk).filter (fun s => s ≠ "" ∧ s ≠ ".")

/-- Lexical resolution of `".."` components against an absolute prefix,
as `Path.resolve()` performs with no symlinks present. -/
def normalizeSegs (segs : List String) : List String :=
  segs.foldl (fun acc seg => if seg = ".." then acc.dropLast else acc ++ [seg]) []

/-- `(allowed_base / dest_path).resolve()` (line 59): the `/` operator ignores
`allowed_base` when `dest_path` is absolute, then the result is normalized. -/
def resolvePath (base p : String) : List String :=
  if isAbsolute p then normalizeSegs (splitPath p)
  else normalizeSegs (splitPath base ++ splitPath p)

/-- Python's `needle in haystack` substring test, on character lists. -/
def containsSub (needle : List Char) : List Char → Bool
  | [] => needle.isEmpty
  | c :: rest => needle.isPrefixOf (c :: rest) || containsSub needle rest

/-- The check `".." in str(dest_path)` (line 62): a plain substring test on
the path's string rendering, not a test for a parent-directory component. -/
def containsDotDot (p : String) : Bool :=
  containsSub "..".data p.data

/-- `sanitize_path` (lines 42-71).  `resolved.relative_to(allowed_base)`
(line 67) succeeds exactly when the base's components are a prefix of the
resolved path's components (equality included — `relative_to` then yields
`'.'`).  Errors are the `ValueError`s the Python raises. -/
def sanitize_path (dest_path allowed_base : String) : Except String (List String) :=
  let resolved := resolvePath allowed_base dest_path
  if containsDotDot dest_path || isAbsolute dest_path then
    Except.error ("Path traversal attempt detected: " ++ dest_path)
  else if (normalizeSegs (splitPath allowed_base)).isPrefixOf resolved then
    Except.ok resolved
  else
    Except.error ("Path " ++ dest_path ++ " escapes allowed directory " ++ allowed_base)

/-! ### Transfer Engine (`AsyncDownloader`, lines 273-501)

The engine's observable machine state is the ledger, the destination file's
bytes (`none` = no file on disk), and the log of HTTP requests issued during
the call.  The HTTP server is a function of the request index (how many
requests this call has already issued), the url, and the optional range start
taken from the `Range: bytes=N-` header. -/

/-- `DownloaderConfig` from `src/app/core/settings.py` (lines 59-64).
`chunk_size` configures `iter_chunked`; in the model the server already
delivers the body as chunks, so the field is carried but not consulted. -/
structure Settings where
  max_concurrent : Nat := 5
  chunk_size : Nat := 8192
  timeout : Nat := 300
  max_retries : Nat := 3
deriving DecidableEq, Repr

/-- Outcome of one `session.get`: either a response (status code,
`Content-Length` header value, body chunks as `iter_chunked` yields them), or
an `aiohttp.ClientError`, or an `asyncio.TimeoutError`. -/
inductive GetResult where
  | resp (status : Nat) (contentLength : Nat) (chunks : List (List Nat))
  | clientError (msg : String)
  | timeoutError
deriving DecidableEq, Repr

/-- The HTTP server: request index within this call, url, range start. -/
abbrev Server := Nat → String → Option Nat → GetResult

/-- Machine state threaded through one `download()` call: ledger rows, the
destination file's bytes, and the issued requests `(url, rangeStart)`. -/
structure EngineState where
  ledger : Ledger
  file : Option (List Nat) := none
  requests : List (String × Option Nat) := []
deriving DecidableEq, Repr

/-- One `session.get(url, headers)`: consults the server and logs the request. -/
def doGet (server : Server) (url : String) (range : Option Nat) (s : EngineState) :
    GetResult × EngineState :=
  (server s.requests.length url range,
   { s with requests := s.requests ++ [(url, range)] })

/-- The Python exceptions that cross the functions' boundaries.
`clientError` stands for `aiohttp.ClientError` (including
`ClientResponseError`), `timeoutError` for `asyncio.TimeoutError`; the typed
errors come from `src/backend/core/exceptions.py`; `valueError` is the plain
`ValueError` that `sanitize_path` raises. -/
inductive PyExc where
  | clientError (msg : String)
  | timeoutError
  | downloadTimeoutError (url : String) (timeout_seconds : Nat)
  | downloadFailedError (url : String) (reason : String) (retries : Nat)
  | valueError (msg : String)
deriving DecidableEq, Repr

/-- `isinstance(e, (aiohttp.ClientError, asyncio.TimeoutError))` — the class
test used both by tenacity's `retry_if_exception_type` (line 368) and by the
`except` clause of `_download_with_retry` (line 381).  The typed
`DownloadError`s derive from `OSINTPipelineError(Exception)`, so they do not
match. -/
def PyExc.isTransient : PyExc → Bool
  | .clientError _ => true
  | .timeoutError => true
  | _ => false

/-- `str(e)` for the exceptions, as stored into `error_message`. -/
def PyExc.message : PyExc → String
  | .clientError msg => msg
  | .timeoutError => ""
  | .downloadTimeoutError url _ => "Download timeout: " ++ url
  | .downloadFailedError url reason _ => "Download failed: " ++ url ++ ": " ++ reason
  | .valueError msg => msg

/-- An exception escaping `_perform_download` or `_download_with_retry`
together with the in-memory `task` object as mutated at the moment of the
raise (the Python mutates the shared object before raising). -/
abbrev Raised := PyExc × DownloadTask

/-- Lines 454-464 of `_perform_download`: finalize the digest over the bytes
fed to the hasher in this session, look the digest up among `COMPLETED` rows,
and either mark `DUPLICATE` (deleting the file — note `sha256_hash` is not
assigned in this branch) or record the digest and mark `COMPLETED`.  The
trailing `update_task` is line 482. -/
def finishDedup (now : Nat) (task : DownloadTask) (hashed : List Nat)
    (s : EngineState) : Except Raised DownloadTask × EngineState :=
  let final_hash := sha256_hexdigest hashed
  match get_task_by_hash s.ledger final_hash with
  | some other =>
    if other.source_url ≠ task.source_url then
      let task2 := { task with status := DownloadStatus.DUPLICATE }
      (Except.ok task2,
       { s with file := none, ledger := ledger_update_task s.ledger task2 now })
    else
      let task2 := { task with sha256_hash := some final_hash,
                               status := DownloadStatus.COMPLETED }
      (Except.ok task2, { s with ledger := ledger_update_task s.ledger task2 now })
  | none =>
    let task2 := { task with sha256_hash := some final_hash,
                             status := DownloadStatus.COMPLETED }
    (Except.ok task2, { s with ledger := ledger_update_task s.ledger task2 now })

/-- The `except asyncio.TimeoutError` / `except aiohttp.ClientError` clauses
of `_perform_download` (lines 466-480): mark the in-memory task `FAILED`,
set `error_message`, and raise the corresponding typed error.  The ledger is
NOT written on this path — the `update_task` of line 482 sits after the
`try`/`except` and is skipped when the `except` clause re-raises. -/
def performExcept (settings : Settings) (task : DownloadTask) (r : GetResult)
    (s : EngineState) : Except Raised DownloadTask × EngineState :=
  match r with
  | .timeoutError =>
    let task2 := { task with status := DownloadStatus.FAILED,
                             error_message := some "Timeout" }
    (Except.error (PyExc.downloadTimeoutError task.source_url settings.timeout, task2), s)
  | .clientError msg =>
    let task2 := { task with status := DownloadStatus.FAILED,
                             error_message := some msg }
    (Except.error (PyExc.downloadFailedError task.source_url msg task.retry_count, task2), s)
  | .resp _ _ _ => (Except.ok task, s)

/-- `AsyncDownloader._perform_download` (lines 394-483).

Faithfully embedded control flow:
* status `DOWNLOADING` persisted (lines 400-401);
* if the file exists with positive size, `bytes_downloaded` is set to it and
  a `Range: bytes=N-` header is prepared (lines 406-410);
* a fresh hasher starts empty regardless of any partial file (line 412);
* a `416` unlinks the file, resets counters, and re-requests without a range,
  then streams writing each chunk through a fresh `open("wb")` — each write
  truncates, so only the last chunk survives (lines 418-432);
* `200` and `206` are treated alike: `total = Content-Length + downloaded`,
  file opened once in `"ab"` if `downloaded > 0` else `"wb"`, chunks appended
  (lines 433-446);
* any other status raises `ClientResponseError`, an `aiohttp.ClientError`,
  caught by the clause of line 473 (lines 447-452);
* on completion the dedup logic of lines 454-464 and the `update_task` of
  line 482 run (`finishDedup`);
* server-level `ClientError`/`TimeoutError` runs the except clauses of
  lines 466-480 (`performExcept`). -/
def perform_download (server : Server) (settings : Settings) (now : Nat)
    (task0 : DownloadTask) (s0 : EngineState) :
    Except Raised DownloadTask × EngineState :=
  let task1 := { task0 with status := DownloadStatus.DOWNLOADING }
  let s1 := { s0 with ledger := ledger_update_task s0.ledger task1 now }
  let existingSize : Nat := (s1.file.getD []).length
  let task2 := if existingSize > 0
    then { task1 with bytes_downloaded := existingSize } else task1
  let range : Option Nat := if existingSize > 0 then some existingSize else none
  let downloaded := task2.bytes_downloaded
  let (r, s2) := doGet server task2.source_url range s1
  match r with
  | .resp status contentLength chunks =>
    if status = 416 then
      let s3 := { s2 with file := none }
      let task3 := { task2 with bytes_downloaded := 0 }
      let (r2, s4) := doGet server task3.source_url none s3
      match r2 with
      | .resp _ cl2 chunks2 =>
        let task4 := { task3 with total_bytes := some cl2,
                                  bytes_downloaded := (chunks2.map List.length).sum }
        let file2 := chunks2.foldl (fun _ c => some c) s4.file
        finishDedup now task4 chunks2.flatten { s4 with file := file2 }
      | bad => performExcept settings task3 bad s4
    else if status = 200 ∨ status = 206 then
      let total := contentLength + downloaded
      let task3 := { task2 with total_bytes := some total,
                                bytes_downloaded := downloaded + (chunks.map List.length).sum }
      let base := if downloaded > 0 then s2.file.getD [] else []
      let s3 := { s2 with file := some (base ++ chunks.flatten) }
      finishDedup now task3 chunks.flatten s3
    else
      performExcept settings task2
        (GetResult.clientError (toString status ++ ", message=")) s2
  | bad => performExcept settings task2 bad s2

/-- The body of `_download_with_retry` (lines 378-392): call
`_perform_download`; `except (aiohttp.ClientError, asyncio.TimeoutError)`
increments `retry_count`, records `error_message`, and either returns the
task as `FAILED` (budget exhausted) or re-raises for tenacity.  Exceptions
that do not match the class test propagate untouched — and
`_perform_download` only ever raises the typed `DownloadTimeoutError` /
`DownloadFailedError`, which do not match. -/
def retry_body (server : Server) (settings : Settings) (now : Nat)
    (task : DownloadTask) (s : EngineState) :
    Except Raised DownloadTask × EngineState :=
  match perform_download server settings now task s with
  | (Except.ok t, s2) => (Except.ok t, s2)
  | (Except.error (e, tMut), s2) =>
    if e.isTransient then
      let t1 := { tMut with retry_count := tMut.retry_count + 1,
                            error_message := some e.message }
      if t1.retry_count ≥ settings.max_retries then
        (Except.ok { t1 with status := DownloadStatus.FAILED }, s2)
      else
        (Except.error (e, t1), s2)
    else
      (Except.error (e, tMut), s2)

/-- tenacity's `stop_after_attempt(3)` argument, hard-coded at line 369. -/
def tenacity_attempts : Nat := 3

/-- The tenacity `@retry` wrapper around `retry_body` (lines 367-372):
run the body; if it raises an exception matching
`retry_if_exception_type((aiohttp.ClientError, asyncio.TimeoutError))` and
attempts remain, wait (exponential backoff, not observable here) and retry;
otherwise re-raise the original exception (`reraise=True`). -/
def retry_loop (server : Server) (settings : Settings) (now : Nat) :
    Nat → DownloadTask → EngineState → Except Raised DownloadTask × EngineState
  | 0, task, s => (Except.error (PyExc.timeoutError, task), s)
  | n + 1, task, s =>
    match retry_body server settings now task s with
    | (Except.ok t, s2) => (Except.ok t, s2)
    | (Except.error (e, tMut), s2) =>
      if e.isTransient ∧ n ≠ 0 then retry_loop server settings now n tMut s2
      else (Except.error (e, tMut), s2)

/-- `AsyncDownloader._download_with_retry` (lines 367-392): the decorated
entry point, budget `stop_after_attempt(3)`. -/
def download_with_retry (server : Server) (settings : Settings) (now : Nat)
    (task : DownloadTask) (s : EngineState) :
    Except Raised DownloadTask × EngineState :=
  retry_loop server settings now tenacity_attempts task s

/-- `AsyncDownloader.download` (lines 322-365), the body inside
`async with self._semaphore` (the semaphore itself is modelled by the
concurrency gate below):
1. `sanitize_path(dest_path, allowed_base)` — a `ValueError` escapes before
   any filesystem or ledger access;
2. `get_task_by_url`; a `COMPLETED` or `DUPLICATE` task is returned
   unchanged;
3. otherwise the existing task is reused or a `PENDING` row created;
4. `_download_with_retry` runs, and on normal return `update_task` persists
   the result; an escaping exception skips that persistence. -/
def download (server : Server) (settings : Settings) (allowed_base : String)
    (now : Nat) (url destPath : String) (s : EngineState) :
    Except (PyExc × Option DownloadTask) DownloadTask × EngineState :=
  match sanitize_path destPath allowed_base with
  | Except.error msg => (Except.error (PyExc.valueError msg, none), s)
  | Except.ok resolved =>
    let filepath := resolved.foldl (fun acc seg => acc ++ "/" ++ seg) ""
    match get_task_by_url s.ledger url with
    | some t =>
      if t.status = DownloadStatus.COMPLETED ∨ t.status = DownloadStatus.DUPLICATE then
        (Except.ok t, s)
      else
        match download_with_retry server settings now t s with
        | (Except.ok t2, s2) =>
          (Except.ok t2, { s2 with ledger := ledger_update_task s2.ledger t2 now })
        | (Except.error (e, tm), s2) => (Except.error (e, some tm), s2)
    | none =>
      let (task, db2) := ledger_create_task s.ledger url filepath now
      let s1 := { s with ledger := db2 }
      match download_with_retry server settings now task s1 with
      | (Except.ok t2, s2) =>
        (Except.ok t2, { s2 with ledger := ledger_update_task s2.ledger t2 now })
      | (Except.error (e, tm), s2) => (Except.error (e, some tm), s2)

/-! ### Second downloader implementation
(`src/backend/services/downloader.py`, `AsyncDownloader`)

Its `DownloadTask` comes from `src/backend/core/interfaces.py` (lines 16-23);
it has no ledger.  Machine state: the destination file and the request log,
plus a flag recording whether the range-resume branch (line 51) ever ran. -/

namespace Services

/-- `DownloadTask` from `src/backend/core/interfaces.py` (lines 16-23). -/
structure STask where
  url : String
  dest_path : String
  status : DownloadStatus
  retries : Nat := 0
  error_message : Option String := none
  sha256_hash : Option String := none
deriving DecidableEq, Repr

/-- State for one `services` `download()` call. -/
structure SState where
  file : Option (List Nat) := none
  requests : List (String × Option Nat) := []
  usedRange : Bool := false
deriving DecidableEq, Repr

/-- `session.get` for the services downloader, logging the request. -/
def sGet (server : Server) (url : String) (range : Option Nat) (s : SState) :
    GetResult × SState :=
  (server s.requests.length url range,
   { s with requests := s.requests ++ [(url, range)] })

/-- `AsyncDownloader._compute_file_hash` (lines 83-88): SHA-256 of the file's
current contents, read in 8192-byte chunks (streaming over the concatenation
equals hashing the whole contents). -/
def compute_file_hash (contents : List Nat) : String :=
  sha256_hexdigest contents

/-- The fetch-and-stream part of `services` `download()` (lines 53-71):
issue the GET (with the prepared headers), `raise_for_status()`, stream
chunks into the file (`"ab"` when a `Range` header was set, else `"wb"`),
then hash the resulting file from disk and mark `COMPLETED`.  Every
exception is swallowed by the blanket `except Exception` (lines 76-79),
yielding a `FAILED` task with `error_message` set. -/
def sFetch (server : Server) (url : String) (append : Bool) (range : Option Nat)
    (task : STask) (s : SState) : STask × SState :=
  let (r, s1) := sGet server url range s
  match r with
  | .resp status _ chunks =>
    if 400 ≤ status then
      ({ task with status := DownloadStatus.FAILED,
                   error_message := some (toString status ++ ", message=") }, s1)
    else
      let base := if append then s1.file.getD [] else []
      let contents := base ++ chunks.flatten
      let s2 := { s1 with file := some contents }
      ({ task with sha256_hash := some (compute_file_hash contents),
                   status := DownloadStatus.COMPLETED }, s2)
  | .clientError msg =>
    ({ task with status := DownloadStatus.FAILED, error_message := some msg }, s1)
  | .timeoutError =>
    ({ task with status := DownloadStatus.FAILED, error_message := some "" }, s1)

/-- `services` `AsyncDownloader.download` (lines 33-81).  If the destination
file exists, `_compute_file_hash` is taken of its current contents; a truthy
(non-empty) digest short-circuits to `COMPLETED` with that digest at
lines 46-50, before any HTTP request; only a falsy digest would reach the
`Range` header assignment of line 51 (recorded in `usedRange`).  Pause
bookkeeping (`self._paused`) is not exercised by the claims and is omitted. -/
def sdownload (server : Server) (url dest : String) (s : SState) : STask × SState :=
  let task : STask := { url := url, dest_path := dest,
                        status := DownloadStatus.DOWNLOADING }
  match s.file with
  | some c =>
    let existing_hash := compute_file_hash c
    if existing_hash ≠ "" then
      ({ task with sha256_hash := some existing_hash,
                   status := DownloadStatus.COMPLETED }, s)
    else
      sFetch server url true (some c.length) task { s with usedRange := true }
  | none => sFetch server url false none task s

end Services

/-! ### Concurrency gate (`asyncio.Semaphore`, lines 296 and 341)

`AsyncDownloader.__init__` builds
`asyncio.Semaphore(settings.downloader.max_concurrent)` and `download()`
brackets its whole body in `async with self._semaphore`, so the slot is
released on every exit path, exceptional ones included.  The gate is modelled
as a transition system over the phases of the concurrent `download()` calls:
a call is `waiting` before it acquires a slot, `active` while it holds one
(streaming), and `finished` once the `async with` block has been exited —
normally or by exception — which releases the slot. -/

/-- Phase of one concurrent `download()` call with respect to the semaphore. -/
inductive Phase where
  | waiting
  | active
  | finished
deriving DecidableEq, Repr

/-- The gate: the configured slot count and the phase of each call. -/
structure Gate where
  limit : Nat
  procs : List Phase
deriving DecidableEq, Repr

/-- Number of calls currently holding a slot (actively streaming). -/
def Gate.activeCount (g : Gate) : Nat :=
  g.procs.countP (fun p => p = Phase.active)

/-- The gate as configured by `AsyncDownloader.__init__` (line 296) for `n`
pending `download()` calls: `Semaphore(max_concurrent)`, nobody admitted yet. -/
def gateInit (settings : Settings) (n : Nat) : Gate :=
  { limit := settings.max_concurrent, procs := List.replicate n Phase.waiting }

/-- Transitions of the gate.  `acquire` is the semaphore grant: it requires a
free slot (`activeCount < limit`); `finish` is the exit of the `async with`
block — taken on every exit path of `download()`, exceptions included, which
is exactly scoped release. -/
inductive GateStep : Gate → Gate → Prop where
  | acquire (g : Gate) (i : Nat) (hi : g.procs[i]? = some Phase.waiting)
      (hs : g.activeCount < g.limit) :
      GateStep g { g with procs := g.procs.set i Phase.active }
  | finish (g : Gate) (i : Nat) (hi : g.procs[i]? = some Phase.active) :
      GateStep g { g with procs := g.procs.set i Phase.finished }

/-- Reachability under gate transitions. -/
inductive GateReach : Gate → Gate → Prop where
  | refl (g : Gate) : GateReach g g
  | step {g0 g g' : Gate} : GateReach g0 g → GateStep g g' → GateReach g0 g'

/-- From the claim's words: the requested path contains a parent-directory
segment, i.e. `".."` as a whole path component (contrast `containsDotDot`,
the implementation's substring test on the rendered string). -/
def specHasParentSegment (p : String) : Bool :=
  (splitPath p).contains ".."

/-- From the claim's words: after resolving `allowedBase / requestedPath`,
the result lies strictly within `allowedBase` (below it, and not equal). -/
def specStrictlyWithin (base p : String) : Bool :=
  (normalizeSegs (splitPath base)).isPrefixOf (resolvePath base p) &&
    !(resolvePath base p == normalizeSegs (splitPath base))

/-! ## Theorems -/

/-- The model's digest is never the empty string — so the truthiness check
`if existing_hash:` of the services downloader (line 47) always passes. -/
theorem sha256_hexdigest_ne_empty (bs : List Nat) : sha256_hexdigest bs ≠ "" := by
  intro h
  have h2 := congrArg String.length h
  rw [sha256_hexdigest, String.length_append] at h2
  have h3 : String.length "sha256:" = 7 := rfl
  have h4 : String.length "" = 0 := rfl
  omega


/-- C9: `DownloadLedger.update_task` writes only the row whose `source_url`
matches the task's, and there only the seven mutable columns; `id`,
`source_url`, `local_filepath`, `created_at`, and every row for another URL
are left unchanged.  Stated positionally over the table: the UPDATE keeps the
row count, acts rowwise, and its per-row effect satisfies the frame
conditions. -/
theorem C9_update_task_frame (db : Ledger) (task : DownloadTask) (now : Nat) :
    (ledger_update_task db task now).length = db.length ∧
    (∀ i : Nat, (ledger_update_task db task now)[i]?
        = (db[i]?).map (update_task_row task now)) ∧
    (∀ row : DownloadTask,
      (update_task_row task now row).id = row.id ∧
      (update_task_row task now row).source_url = row.source_url ∧
      (update_task_row task now row).local_filepath = row.local_filepath ∧
      (update_task_row task now row).created_at = row.created_at ∧
      (row.source_url ≠ task.source_url → update_task_row task now row = row) ∧
      (row.source_url = task.source_url →
        update_task_row task now row =
          { row with
            status := task.status
            bytes_downloaded := task.bytes_downloaded
            total_bytes := task.total_bytes
            sha256_hash := task.sha256_hash
            retry_count := task.retry_count
            error_message := task.error_message
            updated_at := some now })) := by
  refine ⟨List.length_map _ _, fun i => by simp [ledger_update_task, List.getElem?_map], fun row => ?_⟩
  by_cases h : row.source_url = task.source_url
  · simp [update_task_row, h]
  · simp [update_task_row, h]

theorem C9_update_task_frame_witness :
    (ledger_update_task [{ source_url := "http://x/a" }, { source_url := "http://x/b" }]
        { source_url := "http://x/a", status := DownloadStatus.COMPLETED } 5).length = 2 ∧
    update_task_row { source_url := "http://x/a", status := DownloadStatus.COMPLETED } 5
        { source_url := "http://x/b" } = { source_url := "http://x/b" } := by
  have h := C9_update_task_frame
    [{ source_url := "http://x/a" }, { source_url := "http://x/b" }]
    { source_url := "http://x/a", status := DownloadStatus.COMPLETED } 5
  exact ⟨h.1, (h.2.2 { source_url := "http://x/b" }).2.2.2.2.1 (by decide)⟩

/-- `sFetch` never touches the `usedRange` flag: only `sdownload`'s dead
range branch sets it. -/
theorem sFetch_usedRange (server : Server) (url : String) (append : Bool)
    (range : Option Nat) (task : Services.STask) (s : Services.SState) :
    ((Services.sFetch server url append range task s).2).usedRange = s.usedRange := by
  unfold Services.sFetch Services.sGet
  cases server s.requests.length url range with
  | resp status cl chunks =>
    by_cases h : 400 ≤ status <;> simp [h]
  | clientError msg => rfl
  | timeoutError => rfl

/-- C10: in the second downloader implementation
(`src/backend/services/downloader.py`), a `download(url, destPath)` call with
`destPath` already on disk — empty or partially written included — returns a
`COMPLETED` task whose `sha256_hash` is the digest of the file's current
contents, without issuing any HTTP request and without touching the state;
and the range-resume branch of line 51 is unreachable (the `usedRange` flag
can never be raised), because `_compute_file_hash` always returns a non-empty
digest. -/
theorem C10_existing_file_short_circuits (server : Server) (url dest : String)
    (s : Services.SState) :
    (∀ c, s.file = some c →
      Services.sdownload server url dest s =
        ({ url := url, dest_path := dest, status := DownloadStatus.COMPLETED,
           sha256_hash := some (Services.compute_file_hash c) }, s)) ∧
    ((Services.sdownload server url dest s).2).usedRange = s.usedRange := by
  constructor
  · intro c hc
    unfold Services.sdownload
    rw [hc]
    simp [Services.compute_file_hash, sha256_hexdigest_ne_empty]
  · unfold Services.sdownload
    cases hf : s.file with
    | some c =>
      simp only
      rw [if_pos (by simpa [Services.compute_file_hash] using sha256_hexdigest_ne_empty c)]
    | none => exact sFetch_usedRange server url false none _ s

theorem C10_existing_file_short_circuits_witness :
    Services.sdownload (fun _ _ _ => GetResult.timeoutError) "http://x/f" "f.bin"
        { file := some [0] } =
      ({ url := "http://x/f", dest_path := "f.bin",
         status := DownloadStatus.COMPLETED,
         sha256_hash := some (Services.compute_file_hash [0]) },
       { file := some [0] }) :=
  (C10_existing_file_short_circuits (fun _ _ _ => GetResult.timeoutError)
    "http://x/f" "f.bin" { file := some [0] }).1 [0] rfl

/-- C5: once a URL's ledger task is terminal-successful (`COMPLETED` or
`DUPLICATE`), a further `download(url, destPath)` call (with a destination
that passes sanitization) returns that task unchanged — `retry_count`
included — leaving the whole machine state untouched: no ledger mutation and
no HTTP request (the request log does not grow). -/
theorem C5_download_idempotent_on_terminal (server : Server) (settings : Settings)
    (base : String) (now : Nat) (url destPath : String) (s : EngineState)
    (r : List String) (t : DownloadTask)
    (hsan : sanitize_path destPath base = Except.ok r)
    (hget : get_task_by_url s.ledger url = some t)
    (hterm : t.status = DownloadStatus.COMPLETED ∨ t.status = DownloadStatus.DUPLICATE) :
    download server settings base now url destPath s = (Except.ok t, s) := by
  unfold download
  rw [hsan]
  simp only
  rw [hget]
  simp only
  rw [if_pos hterm]

theorem C5_download_idempotent_on_terminal_witness :
    download (fun _ _ _ => GetResult.timeoutError) {} "/data/downloads" 9
        "http://x/a" "a.bin"
        { ledger := [{ source_url := "http://x/a", status := DownloadStatus.COMPLETED,
                       retry_count := 2 }] } =
      (Except.ok { source_url := "http://x/a", status := DownloadStatus.COMPLETED,
                   retry_count := 2 },
       { ledger := [{ source_url := "http://x/a", status := DownloadStatus.COMPLETED,
                      retry_count := 2 }] }) :=
  C5_download_idempotent_on_terminal (fun _ _ _ => GetResult.timeoutError) {}
    "/data/downloads" 9 "http://x/a" "a.bin"
    { ledger := [{ source_url := "http://x/a", status := DownloadStatus.COMPLETED,
                   retry_count := 2 }] }
    (resolvePath "/data/downloads" "a.bin")
    { source_url := "http://x/a", status := DownloadStatus.COMPLETED, retry_count := 2 }
    (by rfl) (by rfl) (Or.inl rfl)

/-- C6 fails as stated: the relative path `"a..b"` is not absolute, contains
no parent-directory segment, and resolves strictly inside the allowed base,
so the claim requires `sanitize` to return the resolved path — yet
`sanitize_path` rejects it, because line 62's `".." in str(dest_path)` is a
plain substring test. -/
theorem C6_counterexample_substring_reject :
    specHasParentSegment "a..b" = false ∧
    isAbsolute "a..b" = false ∧
    specStrictlyWithin "/data/downloads" "a..b" = true ∧
    sanitize_path "a..b" "/data/downloads" =
      Except.error "Path traversal attempt detected: a..b" :=
  ⟨rfl, rfl, rfl, rfl⟩

/-- C6 (amended): `sanitize_path` succeeds — returning the resolution of
`allowedBase / requestedPath` — exactly when the requested path is not
absolute, its string contains no `".."` substring (a stricter test than
"contains parent-directory segments"), and the resolved path lies within the
allowed base, equality with the base included (weaker than "strictly
within"); every other path fails with the traversal `ValueError`, and
`download()` called with such a path propagates that error before any
filesystem write, HTTP request, or ledger access (the state is returned
untouched). -/
theorem C6_sanitize_characterization (p base : String) :
    (sanitize_path p base = Except.ok (resolvePath base p) ↔
      (isAbsolute p = false ∧ containsDotDot p = false ∧
        (normalizeSegs (splitPath base)).isPrefixOf (resolvePath base p) = true)) ∧
    (∀ msg, sanitize_path p base = Except.error msg →
      ∀ (server : Server) (settings : Settings) (now : Nat) (url : String)
        (s : EngineState),
        download server settings base now url p s =
          (Except.error (PyExc.valueError msg, none), s)) := by
  constructor
  · cases h1 : containsDotDot p with
    | true => simp [sanitize_path, h1]
    | false =>
      cases h2 : isAbsolute p with
      | true => simp [sanitize_path, h1, h2]
      | false =>
        cases h3 : (normalizeSegs (splitPath base)).isPrefixOf (resolvePath base p) with
        | true => simp [sanitize_path, h1, h2, h3]
        | false => simp [sanitize_path, h1, h2, h3]
  · intro msg hmsg server settings now url s
    unfold download
    rw [hmsg]

theorem C6_sanitize_characterization_witness :
    sanitize_path "file.pdf" "/data/downloads" =
      Except.ok (resolvePath "/data/downloads" "file.pdf") ∧
    download (fun _ _ _ => GetResult.timeoutError) {} "/data/downloads" 0 "http://x/y"
        "/etc/passwd" { ledger := [] } =
      (Except.error (PyExc.valueError "Path traversal attempt detected: /etc/passwd",
        none), { ledger := [] }) :=
  ⟨(C6_sanitize_characterization "file.pdf" "/data/downloads").1.mpr ⟨rfl, rfl, rfl⟩,
   (C6_sanitize_characterization "/etc/passwd" "/data/downloads").2
     "Path traversal attempt detected: /etc/passwd" (by rfl)
     (fun _ _ _ => GetResult.timeoutError) {} 0 "http://x/y" { ledger := [] }⟩

/-- C2 fails as stated on the digest clause: a second URL whose full body
hashes to the digest of an existing `COMPLETED` task does get status
`DUPLICATE` with its file deleted — but its `contentDigest` is left `none`,
not recorded equal to the matched task's digest (the `DUPLICATE` branch of
lines 457-460 never assigns `task.sha256_hash`).  The final conjunct records
that the matched digest is a present value, so `none` differs from it. -/
theorem C2_counterexample_digest_not_recorded :
    download (fun _ _ _ => GetResult.resp 200 3 [[1, 2, 3]]) {} "/data/downloads" 7
        "http://x/b" "b.bin"
        { ledger := [{ id := some 1, source_url := "http://x/a",
                       local_filepath := "/data/downloads/a.bin",
                       status := DownloadStatus.COMPLETED, bytes_downloaded := 3,
                       total_bytes := some 3,
                       sha256_hash := some (sha256_hexdigest [1, 2, 3]),
                       created_at := some 1, updated_at := some 1 }] } =
      (Except.ok { id := some 2, source_url := "http://x/b",
                   local_filepath := "/data/downloads/b.bin",
                   status := DownloadStatus.DUPLICATE, bytes_downloaded := 3,
                   total_bytes := some 3, sha256_hash := none },
       { ledger := [{ id := some 1, source_url := "http://x/a",
                      local_filepath := "/data/downloads/a.bin",
                      status := DownloadStatus.COMPLETED, bytes_downloaded := 3,
                      total_bytes := some 3,
                      sha256_hash := some (sha256_hexdigest [1, 2, 3]),
                      created_at := some 1, updated_at := some 1 },
                    { id := some 2, source_url := "http://x/b",
                      local_filepath := "/data/downloads/b.bin",
                      status := DownloadStatus.DUPLICATE, bytes_downloaded := 3,
                      total_bytes := some 3, sha256_hash := none,
                      created_at := some 7, updated_at := some 7 }],
         file := none, requests := [("http://x/b", none)] }) ∧
    decide ((some (sha256_hexdigest [1, 2, 3]) : Option String) = none) = false :=
  ⟨rfl, rfl⟩

/-- C2 (amended): when the finalized digest of the streamed bytes matches an
existing `COMPLETED` task belonging to a different URL, the just-downloaded
file is deleted from disk and the task's status is set to `DUPLICATE`, so
exactly one file remains for the two URLs — but the task's `contentDigest`
is left unset (`sha256_hash` keeps its prior value, `none` for a fresh
download) instead of being recorded equal to the matched task's digest. -/
theorem C2_duplicate_deletes_file_digest_unset (now : Nat) (task : DownloadTask)
    (hashed : List Nat) (s : EngineState) (other : DownloadTask)
    (hmatch : get_task_by_hash s.ledger (sha256_hexdigest hashed) = some other)
    (hne : other.source_url ≠ task.source_url) :
    finishDedup now task hashed s =
      (Except.ok { task with status := DownloadStatus.DUPLICATE },
       { s with file := none,
                ledger := ledger_update_task s.ledger
                  { task with status := DownloadStatus.DUPLICATE } now }) := by
  simp only [finishDedup, hmatch]
  rw [if_pos hne]

theorem C2_duplicate_deletes_file_digest_unset_witness :
    finishDedup 4 { source_url := "http://y/b" } [8]
        { ledger := [{ source_url := "http://y/a",
                       status := DownloadStatus.COMPLETED,
                       sha256_hash := some (sha256_hexdigest [8]) }],
          file := some [8] } =
      (Except.ok { source_url := "http://y/b", status := DownloadStatus.DUPLICATE },
       { ledger := [{ source_url := "http://y/a",
                      status := DownloadStatus.COMPLETED,
                      sha256_hash := some (sha256_hexdigest [8]) }],
         file := none }) :=
  C2_duplicate_deletes_file_digest_unset 4 { source_url := "http://y/b" } [8]
    { ledger := [{ source_url := "http://y/a", status := DownloadStatus.COMPLETED,
                   sha256_hash := some (sha256_hexdigest [8]) }],
      file := some [8] }
    { source_url := "http://y/a", status := DownloadStatus.COMPLETED,
      sha256_hash := some (sha256_hexdigest [8]) }
    (by rfl) (by decide)

/-- C1 fails on the code: with a server whose every contact raises a
transient `aiohttp.ClientError`, `download()` raises `DownloadFailedError`
after a single HTTP attempt (the request log has length one, though tenacity
is configured for 3 attempts and `max_retries` is 3) with `retries = 0`, and
the in-memory task ends `FAILED` with `retry_count = 0` — `retryCount` never
passes through `1, ..., maxRetries`, because `_perform_download` converts
the transient error into the typed `DownloadFailedError`, which neither
tenacity's `retry_if_exception_type` filter nor the manual `except` clause
of `_download_with_retry` matches.  The persisted row also still reads
`DOWNLOADING`. -/
theorem C1_transient_errors_never_retried :
    download (fun _ _ _ => GetResult.clientError "boom") {} "/data/downloads" 7
        "http://x/a" "a.bin" { ledger := [] } =
      (Except.error (PyExc.downloadFailedError "http://x/a" "boom" 0,
        some { id := some 1, source_url := "http://x/a",
               local_filepath := "/data/downloads/a.bin",
               status := DownloadStatus.FAILED, retry_count := 0,
               error_message := some "boom" }),
       { ledger := [{ id := some 1, source_url := "http://x/a",
                      local_filepath := "/data/downloads/a.bin",
                      status := DownloadStatus.DOWNLOADING,
                      created_at := some 7, updated_at := some 7 }],
         file := none, requests := [("http://x/a", none)] }) ∧
    tenacity_attempts = 3 ∧ ({} : Settings).max_retries = 3 :=
  ⟨rfl, rfl, rfl⟩

/-- C3 fails on the code: with a partial file `[1, 2]` on disk, `download()`
does issue a range request starting at byte 2 (the request log records it),
but when the server ignores the range and answers `200` with the full 4-byte
body, the engine appends the whole body after the stale partial bytes
instead of discarding them: the final file is `[1, 2, 1, 2, 3, 4]` of size
6, while the server's reported total (its `Content-Length`) is 4. -/
theorem C3_200_after_range_appends :
    download (fun _ _ _ => GetResult.resp 200 4 [[1, 2, 3, 4]]) {} "/data/downloads" 7
        "http://x/c" "c.bin"
        { ledger := [{ id := some 1, source_url := "http://x/c",
                       local_filepath := "/data/downloads/c.bin",
                       status := DownloadStatus.PENDING,
                       created_at := some 1, updated_at := some 1 }],
          file := some [1, 2] } =
      (Except.ok { id := some 1, source_url := "http://x/c",
                   local_filepath := "/data/downloads/c.bin",
                   status := DownloadStatus.COMPLETED, bytes_downloaded := 6,
                   total_bytes := some 6,
                   sha256_hash := some (sha256_hexdigest [1, 2, 3, 4]),
                   created_at := some 1, updated_at := some 1 },
       { ledger := [{ id := some 1, source_url := "http://x/c",
                      local_filepath := "/data/downloads/c.bin",
                      status := DownloadStatus.COMPLETED, bytes_downloaded := 6,
                      total_bytes := some 6,
                      sha256_hash := some (sha256_hexdigest [1, 2, 3, 4]),
                      created_at := some 1, updated_at := some 7 }],
         file := some [1, 2, 1, 2, 3, 4],
         requests := [("http://x/c", some 2)] }) ∧
    decide (([1, 2, 1, 2, 3, 4] : List Nat).length = 4) = false :=
  ⟨rfl, rfl⟩

/-- C4 fails on the code: resuming a partial file `[9, 9]` with a `206`
response carrying the remaining bytes `[7, 7]`, the engine records as final
`contentDigest` the hash of only the newly received bytes `[7, 7]` and marks
the task `COMPLETED`, while the destination file holds `[9, 9, 7, 7]` —
and the two digests differ.  It neither re-hashes from byte 0 nor refuses to
treat the broken-session digest as final. -/
theorem C4_resumed_digest_covers_tail_only :
    download (fun _ _ _ => GetResult.resp 206 2 [[7, 7]]) {} "/data/downloads" 7
        "http://x/d" "d.bin"
        { ledger := [{ id := some 1, source_url := "http://x/d",
                       local_filepath := "/data/downloads/d.bin",
                       status := DownloadStatus.PENDING,
                       created_at := some 1, updated_at := some 1 }],
          file := some [9, 9] } =
      (Except.ok { id := some 1, source_url := "http://x/d",
                   local_filepath := "/data/downloads/d.bin",
                   status := DownloadStatus.COMPLETED, bytes_downloaded := 4,
                   total_bytes := some 4,
                   sha256_hash := some (sha256_hexdigest [7, 7]),
                   created_at := some 1, updated_at := some 1 },
       { ledger := [{ id := some 1, source_url := "http://x/d",
                      local_filepath := "/data/downloads/d.bin",
                      status := DownloadStatus.COMPLETED, bytes_downloaded := 4,
                      total_bytes := some 4,
                      sha256_hash := some (sha256_hexdigest [7, 7]),
                      created_at := some 1, updated_at := some 7 }],
         file := some [9, 9, 7, 7],
         requests := [("http://x/d", some 2)] }) ∧
    decide (sha256_hexdigest [7, 7] = sha256_hexdigest [9, 9, 7, 7]) = false :=
  ⟨rfl, rfl⟩

/-- C7 fails on the code: when the single attempt times out, `download()`
raises the typed `DownloadTimeoutError` with the in-memory task marked
`FAILED` / `error_message = "Timeout"`, but that state is never persisted —
the ledger's row still reads `DOWNLOADING` with a null `error_message`,
because the `update_task` of line 482 sits after the `try`/`except` and the
one in `download()` (line 363) is skipped when the call raises. -/
theorem C7_failed_state_not_persisted_before_raise :
    download (fun _ _ _ => GetResult.timeoutError) {} "/data/downloads" 7
        "http://x/e" "e.bin" { ledger := [] } =
      (Except.error (PyExc.downloadTimeoutError "http://x/e" 300,
        some { id := some 1, source_url := "http://x/e",
               local_filepath := "/data/downloads/e.bin",
               status := DownloadStatus.FAILED,
               error_message := some "Timeout" }),
       { ledger := [{ id := some 1, source_url := "http://x/e",
                      local_filepath := "/data/downloads/e.bin",
                      status := DownloadStatus.DOWNLOADING,
                      created_at := some 7, updated_at := some 7 }],
         file := none, requests := [("http://x/e", none)] }) ∧
    get_task_by_url
        [{ id := some 1, source_url := "http://x/e",
           local_filepath := "/data/downloads/e.bin",
           status := DownloadStatus.DOWNLOADING,
           created_at := some 7, updated_at := some 7 }] "http://x/e" =
      some { id := some 1, source_url := "http://x/e",
             local_filepath := "/data/downloads/e.bin",
             status := DownloadStatus.DOWNLOADING,
             created_at := some 7, updated_at := some 7 } :=
  ⟨rfl, rfl⟩

/-- Admitting a waiting call increments the number of slot holders by one. -/
theorem countP_set_active_of_waiting (l : List Phase) (i : Nat)
    (h : l[i]? = some Phase.waiting) :
    (l.set i Phase.active).countP (fun p => p = Phase.active) =
      l.countP (fun p => p = Phase.active) + 1 := by
  induction l generalizing i with
  | nil => simp at h
  | cons a t ih =>
    cases i with
    | zero =>
      simp only [List.getElem?_cons_zero, Option.some.injEq] at h
      subst h
      simp [List.countP_cons]
    | succ j =>
      simp only [List.getElem?_cons_succ] at h
      rw [List.set_cons_succ, List.countP_cons, List.countP_cons, ih j h]
      omega

/-- A finishing call — exiting the `async with` on any path — releases its
slot: the number of holders drops by one. -/
theorem countP_set_finished_of_active (l : List Phase) (i : Nat)
    (h : l[i]? = some Phase.active) :
    (l.set i Phase.finished).countP (fun p => p = Phase.active) + 1 =
      l.countP (fun p => p = Phase.active) := by
  induction l generalizing i with
  | nil => simp at h
  | cons a t ih =>
    cases i with
    | zero =>
      simp only [List.getElem?_cons_zero, Option.some.injEq] at h
      subst h
      simp [List.countP_cons]
    | succ j =>
      simp only [List.getElem?_cons_succ] at h
      rw [List.set_cons_succ, List.countP_cons, List.countP_cons, ← ih j h]
      omega

/-- Each gate transition keeps the slot limit and preserves the bound. -/
theorem gateStep_preserves (g g2 : Gate) (st : GateStep g g2) :
    g2.limit = g.limit ∧ (g.activeCount ≤ g.limit → g2.activeCount ≤ g2.limit) := by
  cases st with
  | acquire i hi hs =>
    refine ⟨rfl, fun _ => ?_⟩
    have hs2 : g.procs.countP (fun p => p = Phase.active) < g.limit := hs
    show (g.procs.set i Phase.active).countP (fun p => p = Phase.active) ≤ g.limit
    rw [countP_set_active_of_waiting _ _ hi]
    omega
  | finish i hi =>
    refine ⟨rfl, fun hle => ?_⟩
    have hle2 : g.procs.countP (fun p => p = Phase.active) ≤ g.limit := hle
    show (g.procs.set i Phase.finished).countP (fun p => p = Phase.active) ≤ g.limit
    have := countP_set_finished_of_active g.procs i hi
    omega

/-- The bound is invariant along every reachable execution. -/
theorem gateReach_inv (g0 g : Gate) (h : GateReach g0 g)
    (h0 : g0.activeCount ≤ g0.limit) : g.activeCount ≤ g.limit := by
  induction h with
  | refl => exact h0
  | step _ st ih => exact (gateStep_preserves _ _ st).2 ih

/-- A freshly configured gate has no slot holder. -/
theorem gateInit_activeCount (settings : Settings) (n : Nat) :
    (gateInit settings n).activeCount = 0 := by
  show (List.replicate n Phase.waiting).countP (fun p => p = Phase.active) = 0
  induction n with
  | zero => rfl
  | succ m ih => rw [List.replicate_succ, List.countP_cons]; simp [ih]

/-- C8: with the gate configured for `K = max_concurrent` slots, in every
state reachable from the initial configuration at most `K` `download()`
calls hold a slot (are actively streaming), and no single transition can
exceed `K` — in particular, while `K` calls stream, an `acquire` is
impossible (its premise `activeCount < limit` fails), so a `(K+1)`th call
begins only after one of the `K` takes the `finish` transition; `finish`
models the exit of the `async with self._semaphore` block on every path,
normal or exceptional, which is exactly the scoped release. -/
theorem C8_gate_bounds_active_transfers (settings : Settings) (n : Nat) (g : Gate)
    (h : GateReach (gateInit settings n) g) :
    g.activeCount ≤ g.limit ∧ ∀ g2, GateStep g g2 → g2.activeCount ≤ g.limit := by
  have hinv : g.activeCount ≤ g.limit :=
    gateReach_inv _ _ h (by rw [gateInit_activeCount]; exact Nat.zero_le _)
  refine ⟨hinv, fun g2 st => ?_⟩
  have hp := gateStep_preserves _ _ st
  rw [← hp.1]
  exact hp.2 hinv

theorem C8_gate_bounds_active_transfers_witness :
    Gate.activeCount { limit := 1, procs := [Phase.active, Phase.waiting] } ≤ 1 :=
  (C8_gate_bounds_active_transfers { max_concurrent := 1 } 2
    { limit := 1, procs := [Phase.active, Phase.waiting] }
    (GateReach.step (GateReach.refl _)
      (GateStep.acquire (gateInit { max_concurrent := 1 } 2) 0 rfl (by decide)))).1

end EpsteinApi
